import Mathlib

/-!
# Verification of `AerialLandscapes/ThumbnailGeneration.py`

A shallow embedding of the thumbnail-generation batch pipeline.

Modelling conventions:
* Python strings are Lean `String`s; file names in the source directory are
  given as paths relative to the source directory, so a file living in a
  subdirectory has a `/` in its entry (and `pathlib.Path.glob` with a
  single-component pattern such as `*.mp4` never matches across a `/`).
* The output directory (`thumbnails`) is a state value `OutDir`: whether it
  currently exists plus its files, each file recorded as
  `(artifact name, source video it was produced from)` so that overwriting
  is observable.
* `print` calls become `LogEvent`s collected in order; each constructor
  corresponds to one `print` statement of the Python source (payloads keep
  the data interpolated into the message).
* `subprocess.run` is driven by an oracle `SubprocessOutcome` describing what
  the external `ffmpeg` process did: it exited with a code (capturing stderr),
  or the call itself raised (e.g. `FileNotFoundError` when ffmpeg is absent).
* Python exceptions are the `Except PyExc` monad: a function whose Python
  counterpart may let an exception escape returns `Except PyExc _`; the
  `try/except` blocks of the source become `match`es on that result.
-/

namespace ThumbnailGeneration

/-- Index of the last occurrence of `c` in `cs` (Python `str.rfind`). -/
def lastIdxOf (c : Char) (cs : List Char) : Option Nat :=
  (List.range cs.length).foldl
    (fun acc i => if cs.get? i = some c then some i else acc) none

/-- Python `pathlib.PurePath.stem`: the final component without its last
suffix.  CPython computes `i = name.rfind('.')` and returns `name[:i]` when
`0 < i < len(name) - 1`, otherwise the whole name (so `".mp4"` and `"a."`
are their own stem, and `"a.b.mp4"` has stem `"a.b"`). -/
def stem (name : String) : String :=
  let cs := name.toList
  match lastIdxOf '.' cs with
  | none => name
  | some i => if 0 < i ∧ i + 1 < cs.length then String.mk (cs.take i) else name

/-- One `print` of the Python source, with the interpolated data kept as
payload where a claim needs it. -/
inductive LogEvent where
  /-- `"🗑️  Cleaning up old thumbnails directory: {output_dir}"` -/
  | cleaningUp
  /-- `"✅ Old thumbnails removed"` -/
  | oldRemoved
  /-- `"❌ Error cleaning up thumbnails: {str(e)}"` -/
  | cleanupError (msg : String)
  /-- `"Processing {video_path.name}..."` -/
  | processing (video : String)
  /-- the `subprocess.run(cmd, ...)` invocation itself (observable external
  interface, not a print) -/
  | exec (cmd : List String)
  /-- `"✅ Generated thumbnail: {thumbnail_path}"` -/
  | generated (path : String)
  /-- `"❌ Error processing {video_path.name}:"` followed by
  `print(e.stderr.decode())` -/
  | processError (video : String) (stderr : String)
  /-- `"❌ Unexpected error for {video_path.name}:"` followed by
  `print(str(e))` -/
  | unexpectedError (video : String) (msg : String)
  /-- `"No video files found in directory!"` -/
  | noFilesFound
  /-- `"Found {len(video_files)} video files"` -/
  | foundFiles (n : Nat)
  /-- `"Saving thumbnails to: {output_dir}"` -/
  | savingTo (dir : String)
  /-- `"✨ Thumbnail generation complete!"` -/
  | complete
  /-- `"Generated {len(video_files)} thumbnails in: {output_dir}"` -/
  | summary (n : Nat) (dir : String)
deriving DecidableEq

/-- State of the output (`thumbnails`) directory: whether it exists and its
files, each as `(artifact name, source video that produced it)`. -/
structure OutDir where
  present : Bool
  files : List (String × String)
deriving DecidableEq

/-- What the external process did on one `subprocess.run` call. -/
inductive SubprocessOutcome where
  /-- the tool ran and exited with `code`, writing `stderr` -/
  | exit (code : Int) (stderr : String)
  /-- the call itself raised an exception (e.g. `FileNotFoundError` when
  the tool is not installed) with message `msg` -/
  | raised (msg : String)
deriving DecidableEq

/-- Python exceptions relevant to this program. -/
inductive PyExc where
  /-- `subprocess.CalledProcessError` (raised by `check=True`) -/
  | calledProcessError (code : Int) (stderr : String)
  /-- any other `Exception` -/
  | otherException (msg : String)
deriving DecidableEq

/-- `subprocess.run(cmd, check=check, capture_output=True)` under outcome
`oc`: with `check` set, a non-zero exit raises `CalledProcessError`; an
error in the invocation itself raises an ordinary exception. -/
def subprocess_run (check : Bool) (oc : SubprocessOutcome) :
    Except PyExc (Int × String) :=
  match oc with
  | .raised m => .error (.otherException m)
  | .exit code stderr =>
    if check && !(code == 0) then .error (.calledProcessError code stderr)
    else .ok (code, stderr)

/-- `shutil.rmtree(output_dir)` driven by an oracle: `none` means the
deletion succeeds (the directory and all its contents are gone), `some e`
means the filesystem raised an error with message `e` (the directory is
modelled as left unchanged; a real partial deletion is also possible but no
claim depends on the distinction). -/
def rmtree (_out : OutDir) (err : Option String) : Except String OutDir :=
  match err with
  | none => .ok ⟨false, []⟩
  | some e => .error e

/-- Body of the `try:` block of `cleanup_thumbnails` (lines 13-17):
`if output_dir.exists(): print(...); shutil.rmtree(output_dir); print(...)`. -/
def cleanup_thumbnails_body (out : OutDir) (err : Option String) :
    Except String OutDir × List LogEvent :=
  if out.present then
    match rmtree out err with
    | .ok out' => (.ok out', [.cleaningUp, .oldRemoved])
    | .error e => (.error e, [.cleaningUp])
  else (.ok out, [])

/-- `cleanup_thumbnails(output_dir)` (lines 6-19): the body wrapped in
`except Exception as e: print("❌ Error cleaning up thumbnails: ...")`.
Total: every filesystem error is converted into a log line. -/
def cleanup_thumbnails (out : OutDir) (err : Option String) :
    OutDir × List LogEvent :=
  match cleanup_thumbnails_body out err with
  | (.ok out', log) => (out', log)
  | (.error e, log) => (out, log ++ [.cleanupError e])

/-- `output_dir.mkdir(exist_ok=True)` (line 66): create if missing, no
error if already present. -/
def mkdir (out : OutDir) : OutDir :=
  if out.present then out else ⟨true, []⟩

/-- Line 32: `thumbnail_name = f"{video_path.stem}_thumbnail.jpg"`. -/
def thumbnail_name (video_path : String) : String :=
  stem video_path ++ "_thumbnail.jpg"

/-- Lines 36-44: the ffmpeg command list. -/
def ffmpeg_cmd (video_path timestamp thumbnail_path : String) : List String :=
  ["ffmpeg",
   "-i", video_path,
   "-ss", timestamp,
   "-vframes", "1",
   "-vf", "scale=1920:1080",
   "-q:v", "2",
   thumbnail_path]

/-- Writing `thumbnail_path`: ffmpeg (which overwrites here, and names never
collide within the fresh directory anyway) replaces any existing file of
that name and records which source video produced it. -/
def addFile (out : OutDir) (tname src : String) : OutDir :=
  ⟨out.present, out.files.filter (fun f => !(f.1 == tname)) ++ [(tname, src)]⟩

/-- The Python default value of `generate_thumbnail`'s `timestamp`
parameter (line 21): `"00:00:05"`. -/
def default_timestamp : String := "00:00:05"

/-- Body of the `try:` block of `generate_thumbnail` (lines 30-48): build
the output name and the command, print `Processing ...`, run ffmpeg, print
the success line.  Exceptions escape the body. -/
def generate_thumbnail_body (video_path dirPath : String) (out : OutDir)
    (timestamp : String) (oc : SubprocessOutcome) :
    Except PyExc OutDir × List LogEvent :=
  let tname := thumbnail_name video_path
  let tpath := dirPath ++ "/" ++ tname
  let cmd := ffmpeg_cmd video_path timestamp tpath
  match subprocess_run true oc with
  | .error e => (.error e, [.processing video_path, .exec cmd])
  | .ok _ =>
    (.ok (addFile out tname video_path),
     [.processing video_path, .exec cmd, .generated tpath])

/-- `generate_thumbnail(video_path, output_dir, timestamp)` (lines 21-55):
the body wrapped in the two handlers
`except subprocess.CalledProcessError` and `except Exception`.  The result
type still exposes `Except PyExc` so that "no exception propagates to the
caller" is a provable statement rather than a typing accident. -/
def generate_thumbnail (video_path dirPath : String) (out : OutDir)
    (timestamp : String) (oc : SubprocessOutcome) :
    Except PyExc (OutDir × List LogEvent) :=
  match generate_thumbnail_body video_path dirPath out timestamp oc with
  | (.ok out', log) => .ok (out', log)
  | (.error (.calledProcessError _ stderr), log) =>
    .ok (out, log ++ [.processError video_path stderr])
  | (.error (.otherException m), log) =>
    .ok (out, log ++ [.unexpectedError video_path m])

/-- Line 59: the hardcoded source directory. -/
def video_dir : String := "/Users/Shared/Aerial Local/Additional Videos"

/-- Line 60: `output_dir = video_dir / "thumbnails"`. -/
def output_dir : String := video_dir ++ "/thumbnails"

/-- `fnmatch` semantics of a `*.<ext>` pattern as used by
`pathlib.Path.glob` (line 69): `*` matches any run of characters except the
path separator, so a relative path matches iff it has no `/` and ends with
the literal suffix.  The comparison is case-sensitive (POSIX flavour). -/
def glob_match (suffix name : String) : Bool :=
  !(name.toList.contains '/') && suffix.toList.isSuffixOf name.toList

/-- Line 69:
`video_files = list(video_dir.glob("*.mp4")) + list(video_dir.glob("*.mov"))`,
where `listing` is the source directory's enumeration (in filesystem
order, as `os.scandir` yields it). -/
def video_files (listing : List String) : List String :=
  listing.filter (glob_match ".mp4") ++ listing.filter (glob_match ".mov")

/-- Lines 79-80: the `for video_path in video_files:` loop, calling
`generate_thumbnail(video_path, output_dir)` (timestamp left at its
default).  `f` gives the subprocess outcome for each video.  An exception
escaping `generate_thumbnail` would abort the loop and propagate. -/
def process_videos (dirPath : String) (f : String → SubprocessOutcome) :
    List String → OutDir → Except PyExc (OutDir × List LogEvent)
  | [], out => .ok (out, [])
  | v :: vs, out =>
    match generate_thumbnail v dirPath out default_timestamp (f v) with
    | .error e => .error e
    | .ok (out', log1) =>
      match process_videos dirPath f vs out' with
      | .error e => .error e
      | .ok (out'', log2) => .ok (out'', log1 ++ log2)

/-- Everything `main` depends on that lives outside the program: the source
directory listing (relative paths, in enumeration order), the initial state
of the output directory, whether `shutil.rmtree` fails, and what the
external tool does for each video. -/
structure World where
  listing : List String
  out0 : OutDir
  rmtreeErr : Option String
  outcomes : String → SubprocessOutcome

/-- `main()` (lines 57-83): cleanup, mkdir, glob, the empty check, the
processing loop, and the final summary. -/
def main (w : World) : Except PyExc (OutDir × List LogEvent) :=
  let cleaned := cleanup_thumbnails w.out0 w.rmtreeErr
  let out2 := mkdir cleaned.1
  let vfs := video_files w.listing
  if vfs.isEmpty then
    .ok (out2, cleaned.2 ++ [.noFilesFound])
  else
    match process_videos output_dir w.outcomes vfs out2 with
    | .error e => .error e
    | .ok (out3, log3) =>
      .ok (out3,
        cleaned.2 ++ [.foundFiles vfs.length, .savingTo output_dir]
          ++ log3 ++ [.complete, .summary vfs.length output_dir])

/-- The process exit code: a Python script exits 0 when `main` returns
normally, non-zero when an uncaught exception terminates it. -/
def exit_code (w : World) : Int :=
  match main w with
  | .ok _ => 0
  | .error _ => 1

/-! ## Derived characterizations (used by the proofs) -/

/-- Did the subprocess call succeed (tool ran and exited 0)? -/
def outcome_ok : SubprocessOutcome → Bool
  | .exit code _ => code == 0
  | .raised _ => false

/-- Net effect of one `generate_thumbnail` call on the output directory. -/
def step_file (v : String) (out : OutDir) (oc : SubprocessOutcome) : OutDir :=
  if outcome_ok oc then addFile out (thumbnail_name v) v else out

/-- Log of one `generate_thumbnail` call. -/
def item_log (v d ts : String) (oc : SubprocessOutcome) : List LogEvent :=
  let tpath := d ++ "/" ++ thumbnail_name v
  let cmd := ffmpeg_cmd v ts tpath
  match oc with
  | .exit code stderr =>
    if code == 0 then [.processing v, .exec cmd, .generated tpath]
    else [.processing v, .exec cmd, .processError v stderr]
  | .raised m => [.processing v, .exec cmd, .unexpectedError v m]

/-- The error event one `generate_thumbnail` call logs, if its outcome is a
failure. -/
def error_event (v : String) (oc : SubprocessOutcome) : Option LogEvent :=
  match oc with
  | .exit code stderr =>
    if code == 0 then none else some (.processError v stderr)
  | .raised m => some (.unexpectedError v m)

/-- The output directory state after the reset phase (cleanup then mkdir). -/
def reset_out (w : World) : OutDir :=
  mkdir (cleanup_thumbnails w.out0 w.rmtreeErr).1

/-- The output directory state at the end of a run. -/
def final_out (w : World) : OutDir :=
  (video_files w.listing).foldl
    (fun o v => step_file v o (w.outcomes v)) (reset_out w)

/-- Extracts the video of a `processing` event. -/
def processing_event : LogEvent → Option String
  | .processing v => some v
  | _ => none

/-- Extracts the command of an `exec` event. -/
def exec_event : LogEvent → Option (List String)
  | .exec cmd => some cmd
  | _ => none

/-- Is this event a final summary? -/
def is_summary : LogEvent → Bool
  | .summary _ _ => true
  | _ => false

/-- Split a character list on `':'`. -/
def split_colon : List Char → List (List Char)
  | [] => [[]]
  | c :: cs =>
    if c = ':' then [] :: split_colon cs
    else
      match split_colon cs with
      | [] => [[c]]
      | g :: gs => (c :: g) :: gs

/-- Parse a nonempty run of decimal digits. -/
def parse_nat (cs : List Char) : Option Nat :=
  if cs ≠ [] ∧ cs.all (fun c => c.isDigit) then
    some (cs.foldl (fun n c => n * 10 + (c.toNat - 48)) 0)
  else none

/-- Parse an `HH:MM:SS` timestamp into seconds. -/
def timestamp_seconds (ts : String) : Option Nat :=
  match (split_colon ts.toList).map parse_nat with
  | [some h, some m, some s] => some (h * 3600 + m * 60 + s)
  | _ => none

/-- The full log of a run with at least one candidate video. -/
def main_log (w : World) : List LogEvent :=
  let vfs := video_files w.listing
  (cleanup_thumbnails w.out0 w.rmtreeErr).2
    ++ [.foundFiles vfs.length, .savingTo output_dir]
    ++ (vfs.map
          (fun v => item_log v output_dir default_timestamp (w.outcomes v))).flatten
    ++ [.complete, .summary vfs.length output_dir]

/-! ## Basic lemmas -/

theorem generate_thumbnail_eq (v d : String) (out : OutDir) (ts : String)
    (oc : SubprocessOutcome) :
    generate_thumbnail v d out ts oc =
      .ok (step_file v out oc, item_log v d ts oc) := by
  cases oc with
  | raised m => rfl
  | exit code stderr =>
    by_cases h : code = 0
    · subst h; rfl
    · simp [generate_thumbnail, generate_thumbnail_body, subprocess_run,
        step_file, item_log, outcome_ok, h]

theorem process_videos_eq (d : String) (f : String → SubprocessOutcome)
    (vs : List String) (out : OutDir) :
    process_videos d f vs out =
      .ok (vs.foldl (fun o v => step_file v o (f v)) out,
        (vs.map (fun v => item_log v d default_timestamp (f v))).flatten) := by
  induction vs generalizing out with
  | nil => rfl
  | cons v vs ih =>
    simp only [process_videos, generate_thumbnail_eq, ih, List.map_cons,
      List.flatten_cons, List.foldl_cons]

theorem main_eq_empty (w : World) (h : video_files w.listing = []) :
    main w = .ok (reset_out w,
      (cleanup_thumbnails w.out0 w.rmtreeErr).2 ++ [.noFilesFound]) := by
  simp [main, reset_out, h]

theorem main_eq_nonempty (w : World) (h : ¬ video_files w.listing = []) :
    main w = .ok (final_out w, main_log w) := by
  simp only [main, main_log, final_out, reset_out, process_videos_eq,
    List.isEmpty_eq_true, h, if_false]

theorem mkdir_present (out : OutDir) : (mkdir out).present = true := by
  unfold mkdir
  by_cases h : out.present <;> simp [h]

theorem item_log_filterMap_processing (v d ts : String)
    (oc : SubprocessOutcome) :
    (item_log v d ts oc).filterMap processing_event = [v] := by
  cases oc with
  | raised m => rfl
  | exit code stderr =>
    by_cases h : code = 0 <;> simp [item_log, processing_event, h]

theorem item_log_filterMap_exec (v d ts : String) (oc : SubprocessOutcome) :
    (item_log v d ts oc).filterMap exec_event =
      [ffmpeg_cmd v ts (d ++ "/" ++ thumbnail_name v)] := by
  cases oc with
  | raised m => rfl
  | exit code stderr =>
    by_cases h : code = 0 <;> simp [item_log, exec_event, h]

theorem error_event_mem_item_log (v d ts : String) (oc : SubprocessOutcome)
    (e : LogEvent) (he : error_event v oc = some e) :
    e ∈ item_log v d ts oc := by
  cases oc with
  | raised m =>
    simp only [error_event, Option.some.injEq] at he
    simp [item_log, ← he]
  | exit code stderr =>
    by_cases h : code = 0
    · simp [error_event, h] at he
    · simp [error_event, h] at he
      simp [item_log, h, ← he]

theorem cleanup_log_cases (out : OutDir) (err : Option String) :
    (cleanup_thumbnails out err).2 = [] ∨
    (cleanup_thumbnails out err).2 = [.cleaningUp, .oldRemoved] ∨
    ∃ e, (cleanup_thumbnails out err).2 = [.cleaningUp, .cleanupError e] := by
  unfold cleanup_thumbnails cleanup_thumbnails_body rmtree
  cases err <;> by_cases h : out.present <;> simp [h]

theorem cleanup_log_filterMap_processing (out : OutDir) (err : Option String) :
    (cleanup_thumbnails out err).2.filterMap processing_event = [] := by
  rcases cleanup_log_cases out err with h | h | ⟨e, h⟩ <;>
    simp [h, processing_event]

theorem cleanup_log_filterMap_exec (out : OutDir) (err : Option String) :
    (cleanup_thumbnails out err).2.filterMap exec_event = [] := by
  rcases cleanup_log_cases out err with h | h | ⟨e, h⟩ <;>
    simp [h, exec_event]

theorem cleanup_log_no_summary (out : OutDir) (err : Option String) :
    ∀ ev ∈ (cleanup_thumbnails out err).2, is_summary ev = false := by
  rcases cleanup_log_cases out err with h | h | ⟨e, h⟩ <;>
    simp [h, is_summary]

theorem flatten_map_singleton {α β : Type} (vs : List α) (g : α → β) :
    (vs.map (fun v => [g v])).flatten = vs.map g := by
  induction vs with
  | nil => rfl
  | cons v vs ih => simp [ih]

theorem main_log_filterMap_processing (w : World) :
    (main_log w).filterMap processing_event = video_files w.listing := by
  unfold main_log
  simp only [List.filterMap_append, List.filterMap_flatten,
    cleanup_log_filterMap_processing, List.map_map]
  have : (fun v => (item_log v output_dir default_timestamp
      (w.outcomes v)).filterMap processing_event) = fun v => [v] := by
    funext v; exact item_log_filterMap_processing _ _ _ _
  simp [Function.comp_def, item_log_filterMap_processing, processing_event,
    flatten_map_singleton]

theorem main_log_filterMap_exec (w : World) :
    (main_log w).filterMap exec_event =
      (video_files w.listing).map (fun v =>
        ffmpeg_cmd v default_timestamp
          (output_dir ++ "/" ++ thumbnail_name v)) := by
  unfold main_log
  simp only [List.filterMap_append, List.filterMap_flatten,
    cleanup_log_filterMap_exec, List.map_map]
  simp [Function.comp_def, item_log_filterMap_exec, exec_event,
    flatten_map_singleton]

theorem main_log_error_mem (w : World) (v : String)
    (hv : v ∈ video_files w.listing) (e : LogEvent)
    (he : error_event v (w.outcomes v) = some e) : e ∈ main_log w := by
  unfold main_log
  have hflat : e ∈ (List.map
      (fun v => item_log v output_dir default_timestamp (w.outcomes v))
      (video_files w.listing)).flatten :=
    List.mem_flatten.mpr
      ⟨item_log v output_dir default_timestamp (w.outcomes v),
       List.mem_map_of_mem _ hv, error_event_mem_item_log _ _ _ _ _ he⟩
  exact List.mem_append_left _ (List.mem_append_right _ hflat)

theorem filter_not_self (l : List (String × String)) (n : String) :
    (l.filter (fun p => !(p.1 == n))).filter (fun p => p.1 == n) = [] := by
  induction l with
  | nil => rfl
  | cons a l ih => by_cases ha : a.1 = n <;> simp [ha, ih]

theorem filter_filter_ne (l : List (String × String)) (tname n : String)
    (h : ¬ tname = n) :
    (l.filter (fun p => !(p.1 == tname))).filter (fun p => p.1 == n) =
      l.filter (fun p => p.1 == n) := by
  induction l with
  | nil => rfl
  | cons a l ih =>
    by_cases ha : a.1 = tname
    · have han : ¬ a.1 = n := fun hc => h (ha ▸ hc)
      rw [List.filter_cons_of_neg (by simp [ha]), ih,
        List.filter_cons_of_neg (by simp [han])]
    · rw [List.filter_cons_of_pos (by simp [ha])]
      by_cases han : a.1 = n
      · rw [List.filter_cons_of_pos (by simp [han]), ih,
          List.filter_cons_of_pos (by simp [han])]
      · rw [List.filter_cons_of_neg (by simp [han]), ih,
          List.filter_cons_of_neg (by simp [han])]

theorem addFile_filter_eq (out : OutDir) (src n : String) :
    (addFile out n src).files.filter (fun p => p.1 == n) = [(n, src)] := by
  unfold addFile
  simp [List.filter_append, filter_not_self]

theorem addFile_filter_ne (out : OutDir) (tname src n : String)
    (h : ¬ tname = n) :
    (addFile out tname src).files.filter (fun p => p.1 == n) =
      out.files.filter (fun p => p.1 == n) := by
  unfold addFile
  simp [List.filter_append, filter_filter_ne out.files tname n h, h]

/-- The artifacts named `n` after the whole batch: the last successfully
processed video whose thumbnail is named `n` wins; if no success produced
`n`, the entries of the starting state survive. -/
theorem foldl_files_filter (f : String → SubprocessOutcome) (n : String)
    (vs : List String) (out : OutDir) :
    ((vs.foldl (fun o v => step_file v o (f v)) out).files.filter
        (fun p => p.1 == n)) =
      match (vs.filter (fun v =>
          outcome_ok (f v) && (thumbnail_name v == n))).getLast? with
      | some v => [(n, v)]
      | none => out.files.filter (fun p => p.1 == n) := by
  induction vs generalizing out with
  | nil => rfl
  | cons v vs ih =>
    rw [List.foldl_cons, ih]
    by_cases hp : (outcome_ok (f v) && (thumbnail_name v == n)) = true
    · rw [show List.filter (fun v =>
            outcome_ok (f v) && (thumbnail_name v == n)) (v :: vs) =
          v :: List.filter (fun v =>
            outcome_ok (f v) && (thumbnail_name v == n)) vs from
        List.filter_cons_of_pos hp]
      have hp' : outcome_ok (f v) = true ∧ thumbnail_name v = n := by
        simpa using hp
      have hok := hp'.1
      have hname := hp'.2
      cases hlast : (vs.filter (fun v =>
          outcome_ok (f v) && (thumbnail_name v == n))).getLast? with
      | some v' =>
        rw [show v :: vs.filter (fun v =>
            outcome_ok (f v) && (thumbnail_name v == n)) =
          [v] ++ vs.filter (fun v =>
            outcome_ok (f v) && (thumbnail_name v == n)) from rfl]
        rw [List.getLast?_append, hlast]
        rfl
      | none =>
        have hnil := List.getLast?_eq_none_iff.mp hlast
        rw [hnil]
        simp only [List.getLast?_singleton]
        unfold step_file
        rw [hok, if_pos rfl, hname]
        exact addFile_filter_eq out v n
    · rw [List.filter_cons_of_neg (by simpa using hp)]
      have hstep : (step_file v out (f v)).files.filter (fun p => p.1 == n) =
          out.files.filter (fun p => p.1 == n) := by
        unfold step_file
        by_cases hok : outcome_ok (f v) = true
        · have hname : ¬ thumbnail_name v = n := by
            intro hc
            exact hp (by simp [hok, hc])
          rw [if_pos hok]
          exact addFile_filter_ne out (thumbnail_name v) v n hname
        · rw [if_neg hok]
      rw [hstep]

theorem reset_out_present (w : World) : (reset_out w).present = true :=
  mkdir_present _

theorem reset_out_clean (w : World) (h : w.rmtreeErr = none) :
    (reset_out w).files = [] := by
  unfold reset_out cleanup_thumbnails cleanup_thumbnails_body rmtree mkdir
  by_cases hp : w.out0.present <;> simp [h, hp]

theorem data_append (a b : String) : (a ++ b).data = a.data ++ b.data :=
  String.data_append a b

theorem thumbnail_name_inj (v1 v2 : String)
    (h : thumbnail_name v1 = thumbnail_name v2) : stem v1 = stem v2 := by
  unfold thumbnail_name at h
  have hd := congrArg String.data h
  rw [data_append, data_append] at hd
  have := List.append_cancel_right hd
  exact String.ext this

theorem main_ok (w : World) : ∃ r, main w = Except.ok r := by
  by_cases h : video_files w.listing = []
  · exact ⟨_, main_eq_empty w h⟩
  · exact ⟨_, main_eq_nonempty w h⟩

theorem main_dest (w : World) (out : OutDir) (log : List LogEvent)
    (h : main w = .ok (out, log)) :
    (video_files w.listing = [] ∧ out = reset_out w ∧
      log = (cleanup_thumbnails w.out0 w.rmtreeErr).2 ++ [.noFilesFound]) ∨
    (video_files w.listing ≠ [] ∧ out = final_out w ∧ log = main_log w) := by
  by_cases hne : video_files w.listing = []
  · left
    have h2 := main_eq_empty w hne
    rw [h] at h2
    simp only [Except.ok.injEq, Prod.mk.injEq] at h2
    exact ⟨hne, h2.1, h2.2⟩
  · right
    have h2 := main_eq_nonempty w hne
    rw [h] at h2
    simp only [Except.ok.injEq, Prod.mk.injEq] at h2
    exact ⟨hne, h2.1, h2.2⟩

/-! ## Sample worlds used by the witnesses -/

/-- Two candidate videos sharing the stem `clip`; everything succeeds. -/
def clip_world : World :=
  ⟨["clip.mp4", "clip.mov"], ⟨true, [("stale_thumbnail.jpg", "old")]⟩, none,
   fun _ => .exit 0 ""⟩

/-- Two candidate videos; both extractions fail (one non-zero exit, one
raised invocation error). -/
def fail_world : World :=
  ⟨["a.mp4", "b.mp4"], ⟨true, []⟩, none,
   fun v => if v == "a.mp4" then .exit 1 "boom" else .raised "ffmpeg missing"⟩

/-- A source directory with no matching video files. -/
def empty_world : World :=
  ⟨["notes.txt", "sub/clip.mp4", "CLIP.MP4"], ⟨true, [("x.jpg", "old")]⟩,
   none, fun _ => .exit 0 ""⟩

/-- A listing whose glob result is not sorted by name. -/
def unsorted_world : World :=
  ⟨["b.mp4", "a.mov"], ⟨false, []⟩, none, fun _ => .exit 0 ""⟩

/-! ## The claims -/

/-- C10: every invocation of `generate_thumbnail` returns normally whatever
the outcome of the extraction attempt: both a non-zero tool exit
(`CalledProcessError`) and any other exception raised while constructing or
running the command are caught inside the operation, so no exception from
the attempt propagates to the caller. -/
theorem generate_thumbnail_no_exception (v d : String) (out : OutDir)
    (ts : String) (oc : SubprocessOutcome) :
    ∃ r, generate_thumbnail v d out ts oc = Except.ok r :=
  ⟨_, generate_thumbnail_eq v d out ts oc⟩

/-- C5: the name of a thumbnail artifact is derived solely from the video's
stem as `<stem>_thumbnail.jpg` and the artifact is placed inside the output
directory; no other input (directory, timestamp, tool outcome) influences
the name. -/
theorem thumbnail_output_naming (v d ts : String) (out : OutDir)
    (oc : SubprocessOutcome) :
    thumbnail_name v = stem v ++ "_thumbnail.jpg" ∧
    (∀ v', stem v' = stem v → thumbnail_name v' = thumbnail_name v) ∧
    (∀ s, oc = .exit 0 s →
      generate_thumbnail v d out ts oc =
        .ok (addFile out (thumbnail_name v) v,
          [.processing v,
           .exec (ffmpeg_cmd v ts (d ++ "/" ++ thumbnail_name v)),
           .generated (d ++ "/" ++ thumbnail_name v)])) := by
  refine ⟨rfl, fun v' h => by unfold thumbnail_name; rw [h], fun s hoc => ?_⟩
  subst hoc
  rw [generate_thumbnail_eq]
  rfl

/-- C5 witness: a successful extraction of `clip.mp4` produces exactly the
artifact `clip_thumbnail.jpg` in the output directory. -/
theorem thumbnail_output_naming_witness :
    generate_thumbnail "clip.mp4" output_dir ⟨true, []⟩ default_timestamp
        (.exit 0 "") =
      .ok (addFile ⟨true, []⟩ (thumbnail_name "clip.mp4") "clip.mp4",
        [.processing "clip.mp4",
         .exec (ffmpeg_cmd "clip.mp4" default_timestamp
           (output_dir ++ "/" ++ thumbnail_name "clip.mp4")),
         .generated (output_dir ++ "/" ++ thumbnail_name "clip.mp4")]) :=
  (thumbnail_output_naming "clip.mp4" output_dir default_timestamp
    ⟨true, []⟩ (.exit 0 "")).2.2 "" rfl

/-- C9: a file of the source directory is a candidate video iff its name
matches the glob pattern `*.mp4` or `*.mov` directly in the source
directory; matching is non-recursive and case-sensitive, so files in
subdirectories or with other or differently-cased extensions are never
processed. -/
theorem candidate_glob (listing : List String) (name : String) :
    (name ∈ video_files listing ↔
      name ∈ listing ∧
        (glob_match ".mp4" name = true ∨ glob_match ".mov" name = true)) ∧
    glob_match ".mp4" "sub/clip.mp4" = false ∧
    glob_match ".mp4" "CLIP.MP4" = false ∧
    glob_match ".mov" "CLIP.MOV" = false ∧
    glob_match ".mp4" "clip.avi" = false ∧
    glob_match ".mp4" "clip.mp4" = true ∧
    glob_match ".mov" "clip.mov" = true ∧
    video_files ["clip.mp4", "sub/clip.mp4", "CLIP.MP4", "clip.avi",
        "b.mov", "thumbnails"] = ["clip.mp4", "b.mov"] := by
  refine ⟨?_, by decide, by decide, by decide, by decide, by decide,
    by decide, by decide⟩
  simp only [video_files, List.mem_append, List.mem_filter]
  constructor
  · rintro (⟨hm, hp⟩ | ⟨hm, hp⟩)
    · exact ⟨hm, Or.inl hp⟩
    · exact ⟨hm, Or.inr hp⟩
  · rintro ⟨hm, hp | hp⟩
    · exact Or.inl ⟨hm, hp⟩
    · exact Or.inr ⟨hm, hp⟩

/-- C2: the workspace reset removes the output directory recursively when
it exists; any filesystem error during that deletion is caught and logged
without aborting the run, which continues to the creation step; after the
creation step the output directory exists, whether or not it was already
present. -/
theorem workspace_reset (w : World) :
    (reset_out w).present = true ∧
    (w.rmtreeErr = none → w.out0.present = true →
      cleanup_thumbnails w.out0 w.rmtreeErr =
        (⟨false, []⟩, [.cleaningUp, .oldRemoved])) ∧
    (∀ e, w.rmtreeErr = some e → w.out0.present = true →
      cleanup_thumbnails w.out0 w.rmtreeErr =
        (w.out0, [.cleaningUp, .cleanupError e])) ∧
    (∃ out log, main w = .ok (out, log) ∧
      ∀ ev ∈ (cleanup_thumbnails w.out0 w.rmtreeErr).2, ev ∈ log) := by
  refine ⟨reset_out_present w, ?_, ?_, ?_⟩
  · intro h hp
    unfold cleanup_thumbnails cleanup_thumbnails_body rmtree
    simp [h, hp]
  · intro e h hp
    unfold cleanup_thumbnails cleanup_thumbnails_body rmtree
    simp [h, hp]
  · by_cases hne : video_files w.listing = []
    · exact ⟨_, _, main_eq_empty w hne,
        fun ev hev => List.mem_append_left _ hev⟩
    · refine ⟨_, _, main_eq_nonempty w hne, fun ev hev => ?_⟩
      unfold main_log
      exact List.mem_append_left _ (List.mem_append_left _
        (List.mem_append_left _ hev))

/-- C6: every single-file extraction in a run invokes the external tool to
extract exactly one frame (`-vframes 1`) at the default timestamp
`00:00:05` (5 seconds from stream start), scaled to the fixed 1920×1080
resolution (`-vf scale=1920:1080`) regardless of the source, with the
fixed high-quality JPEG parameter (`-q:v 2`), writing to the derived
output path. -/
theorem ffmpeg_invocation (w : World) (out : OutDir) (log : List LogEvent)
    (h : main w = .ok (out, log)) :
    log.filterMap exec_event = (video_files w.listing).map (fun v =>
      ["ffmpeg", "-i", v, "-ss", "00:00:05", "-vframes", "1",
       "-vf", "scale=1920:1080", "-q:v", "2",
       output_dir ++ "/" ++ thumbnail_name v]) ∧
    timestamp_seconds default_timestamp = some 5 := by
  refine ⟨?_, by decide⟩
  rcases main_dest w out log h with ⟨hemp, _, hlog⟩ | ⟨_, _, hlog⟩
  · rw [hlog, hemp, List.filterMap_append, cleanup_log_filterMap_exec]
    rfl
  · rw [hlog, main_log_filterMap_exec]
    rfl

/-- C7: candidate videos are processed in extension-group order: first all
files matching the first declared extension (`.mp4`), then all matching the
second (`.mov`), each group in filesystem enumeration order; the combined
list is not globally sorted by name. -/
theorem extension_group_order (w : World) (out : OutDir)
    (log : List LogEvent) (h : main w = .ok (out, log)) :
    log.filterMap processing_event =
      w.listing.filter (glob_match ".mp4") ++
        w.listing.filter (glob_match ".mov") ∧
    video_files unsorted_world.listing = ["b.mp4", "a.mov"] ∧
    ("a.mov" : String) < "b.mp4" := by
  refine ⟨?_, by decide, by rw [String.lt_iff_toList_lt]; decide⟩
  show log.filterMap processing_event = video_files w.listing
  rcases main_dest w out log h with ⟨hemp, _, hlog⟩ | ⟨_, _, hlog⟩
  · rw [hlog, hemp, List.filterMap_append, cleanup_log_filterMap_processing]
    rfl
  · rw [hlog, main_log_filterMap_processing]

/-- C8: when the source directory contains no files matching the video
extensions, a "no files found" message is reported and the run terminates
successfully before any extraction is invoked and before the summary is
emitted, leaving the (already reset) output directory empty. -/
theorem no_files_found (w : World) (h : video_files w.listing = []) :
    exit_code w = 0 ∧
    ∃ log, main w = .ok (reset_out w, log) ∧
      log.getLast? = some .noFilesFound ∧
      log.filterMap processing_event = [] ∧
      log.filterMap exec_event = [] ∧
      (∀ ev ∈ log, is_summary ev = false) ∧
      (w.rmtreeErr = none → (reset_out w).files = []) := by
  refine ⟨by simp [exit_code, main_eq_empty w h], _, main_eq_empty w h,
    List.getLast?_concat _, ?_, ?_, ?_, reset_out_clean w⟩
  · rw [List.filterMap_append, cleanup_log_filterMap_processing]
    rfl
  · rw [List.filterMap_append, cleanup_log_filterMap_exec]
    rfl
  · intro ev hev
    rcases List.mem_append.mp hev with hc | hn
    · exact cleanup_log_no_summary _ _ ev hc
    · rw [List.mem_singleton.mp hn]
      rfl

/-- C8 witness: a run over a source directory holding only a text file, a
video in a subdirectory and an upper-cased extension. -/
theorem no_files_found_witness :
    exit_code empty_world = 0 ∧
    ∃ log, main empty_world = .ok (reset_out empty_world, log) ∧
      log.getLast? = some .noFilesFound ∧
      log.filterMap processing_event = [] ∧
      log.filterMap exec_event = [] ∧
      (∀ ev ∈ log, is_summary ev = false) ∧
      (empty_world.rmtreeErr = none →
        (reset_out empty_world).files = []) :=
  no_files_found empty_world (by decide)

/-- C1: for every batch, per-item extraction failures (non-zero tool exit
or any other exception) are caught and logged inside the per-file
operation, the remaining items are still attempted in order, and the
process exits 0 even if every extraction failed. -/
theorem batch_failure_isolation (w : World) :
    exit_code w = 0 ∧
    ∃ out log, main w = .ok (out, log) ∧
      log.filterMap processing_event = video_files w.listing ∧
      ∀ v ∈ video_files w.listing, ∀ e,
        error_event v (w.outcomes v) = some e → e ∈ log := by
  by_cases h : video_files w.listing = []
  · refine ⟨by simp [exit_code, main_eq_empty w h], _, _,
      main_eq_empty w h, ?_, ?_⟩
    · rw [h, List.filterMap_append, cleanup_log_filterMap_processing]
      rfl
    · intro v hv
      rw [h] at hv
      cases hv
  · exact ⟨by simp [exit_code, main_eq_nonempty w h], _, _,
      main_eq_nonempty w h, main_log_filterMap_processing w,
      fun v hv e he => main_log_error_mem w v hv e he⟩

/-- C4: when at least one candidate exists, the final summary reports the
total number of candidate files attempted and the output directory
location, not the number of artifacts actually produced. -/
theorem summary_counts_candidates (w : World)
    (h : video_files w.listing ≠ []) :
    ∃ out log, main w = .ok (out, log) ∧
      log.getLast? =
        some (.summary (video_files w.listing).length output_dir) ∧
      .foundFiles (video_files w.listing).length ∈ log := by
  refine ⟨_, _, main_eq_nonempty w h, ?_, ?_⟩
  · unfold main_log
    rw [List.getLast?_append]
    rfl
  · unfold main_log
    refine List.mem_append_left _ (List.mem_append_left _
      (List.mem_append_right _ ?_))
    simp

/-- C3: when exactly two distinct source files normalizing to the same stem
are processed in one run (after a clean reset) and both extractions
succeed, the second extraction overwrites the first's artifact, so the
final output directory contains exactly one artifact for that stem — the
one produced from the second file. -/
theorem overwrite_same_stem (w : World) (v1 v2 : String)
    (htwo : (video_files w.listing).filter
        (fun v => stem v == stem v1) = [v1, v2])
    (hne : v1 ≠ v2)
    (h1 : outcome_ok (w.outcomes v1) = true)
    (h2 : outcome_ok (w.outcomes v2) = true)
    (hclean : w.rmtreeErr = none) :
    ∃ log, main w = .ok (final_out w, log) ∧
      (final_out w).files.filter
        (fun p => p.1 == thumbnail_name v1) = [(thumbnail_name v1, v2)] := by
  have hnonempty : video_files w.listing ≠ [] := by
    intro hemp
    rw [hemp] at htwo
    exact List.cons_ne_nil v1 [v2] htwo.symm
  refine ⟨_, main_eq_nonempty w hnonempty, ?_⟩
  have hpred : (fun v => outcome_ok (w.outcomes v) &&
        (thumbnail_name v == thumbnail_name v1)) =
      (fun v => outcome_ok (w.outcomes v) && (stem v == stem v1)) := by
    funext v
    congr 1
    rw [Bool.eq_iff_iff, beq_iff_eq, beq_iff_eq]
    constructor
    · exact thumbnail_name_inj v v1
    · intro hs
      unfold thumbnail_name
      rw [hs]
  have hcomb : (video_files w.listing).filter
      (fun v => outcome_ok (w.outcomes v) && (stem v == stem v1)) =
      [v1, v2] := by
    rw [← List.filter_filter (fun v => stem v == stem v1), htwo]
    simp [h1, h2]
  have hff := foldl_files_filter w.outcomes (thumbnail_name v1)
    (video_files w.listing) (reset_out w)
  rw [hpred, hcomb] at hff
  simpa [final_out] using hff

/-- C3 witness: `clip.mp4` then `clip.mov` in one successful run leave
exactly one `clip_thumbnail.jpg`, produced from `clip.mov`. -/
theorem overwrite_same_stem_witness :
    ∃ log, main clip_world = .ok (final_out clip_world, log) ∧
      (final_out clip_world).files.filter
          (fun p => p.1 == thumbnail_name "clip.mp4") =
        [(thumbnail_name "clip.mp4", "clip.mov")] :=
  overwrite_same_stem clip_world "clip.mp4" "clip.mov" (by decide)
    (by decide) (by decide) (by decide) rfl

/-- C10 witness: a raised invocation error is still returned as a normal
result. -/
theorem generate_thumbnail_no_exception_witness :
    ∃ r, generate_thumbnail "a.mp4" output_dir ⟨true, []⟩ default_timestamp
        (.raised "ffmpeg missing") = Except.ok r :=
  generate_thumbnail_no_exception "a.mp4" output_dir ⟨true, []⟩
    default_timestamp (.raised "ffmpeg missing")

/-- C9 witness: concrete instance of the candidate characterization. -/
theorem candidate_glob_witness :
    ("clip.mp4" ∈ video_files ["clip.mp4", "sub/clip.mp4", "CLIP.MP4"] ↔
      "clip.mp4" ∈ (["clip.mp4", "sub/clip.mp4", "CLIP.MP4"] : List String) ∧
        (glob_match ".mp4" "clip.mp4" = true ∨
          glob_match ".mov" "clip.mp4" = true)) ∧
    glob_match ".mp4" "sub/clip.mp4" = false ∧
    glob_match ".mp4" "CLIP.MP4" = false ∧
    glob_match ".mov" "CLIP.MOV" = false ∧
    glob_match ".mp4" "clip.avi" = false ∧
    glob_match ".mp4" "clip.mp4" = true ∧
    glob_match ".mov" "clip.mov" = true ∧
    video_files ["clip.mp4", "sub/clip.mp4", "CLIP.MP4", "clip.avi",
        "b.mov", "thumbnails"] = ["clip.mp4", "b.mov"] :=
  candidate_glob ["clip.mp4", "sub/clip.mp4", "CLIP.MP4"] "clip.mp4"

/-- The deletion of the stale output directory fails. -/
def rmfail_world : World :=
  ⟨["a.mp4"], ⟨true, [("stale_thumbnail.jpg", "old")]⟩,
   some "Permission denied", fun _ => .exit 0 ""⟩

/-- C2 witness: concrete instance of the reset contract at a world whose
deletion fails. -/
theorem workspace_reset_witness :
    (reset_out rmfail_world).present = true ∧
    (rmfail_world.rmtreeErr = none → rmfail_world.out0.present = true →
      cleanup_thumbnails rmfail_world.out0 rmfail_world.rmtreeErr =
        (⟨false, []⟩, [.cleaningUp, .oldRemoved])) ∧
    (∀ e, rmfail_world.rmtreeErr = some e →
      rmfail_world.out0.present = true →
      cleanup_thumbnails rmfail_world.out0 rmfail_world.rmtreeErr =
        (rmfail_world.out0, [.cleaningUp, .cleanupError e])) ∧
    (∃ out log, main rmfail_world = .ok (out, log) ∧
      ∀ ev ∈ (cleanup_thumbnails rmfail_world.out0
          rmfail_world.rmtreeErr).2, ev ∈ log) :=
  workspace_reset rmfail_world

/-- C6 witness: the commands invoked in a concrete successful run. -/
theorem ffmpeg_invocation_witness :
    (main_log clip_world).filterMap exec_event =
      (video_files clip_world.listing).map (fun v =>
        ["ffmpeg", "-i", v, "-ss", "00:00:05", "-vframes", "1",
         "-vf", "scale=1920:1080", "-q:v", "2",
         output_dir ++ "/" ++ thumbnail_name v]) ∧
    timestamp_seconds default_timestamp = some 5 :=
  ffmpeg_invocation clip_world (final_out clip_world) (main_log clip_world)
    (by rfl)

/-- C7 witness: a concrete run whose processing order keeps the `.mp4`
group before an alphabetically-earlier `.mov` file. -/
theorem extension_group_order_witness :
    (main_log unsorted_world).filterMap processing_event =
      unsorted_world.listing.filter (glob_match ".mp4") ++
        unsorted_world.listing.filter (glob_match ".mov") ∧
    video_files unsorted_world.listing = ["b.mp4", "a.mov"] ∧
    ("a.mov" : String) < "b.mp4" :=
  extension_group_order unsorted_world (final_out unsorted_world)
    (main_log unsorted_world) (by rfl)

/-- C1 witness: a run where every extraction fails still attempts both
items, logs both errors and exits 0. -/
theorem batch_failure_isolation_witness :
    exit_code fail_world = 0 ∧
    ∃ out log, main fail_world = .ok (out, log) ∧
      log.filterMap processing_event = video_files fail_world.listing ∧
      ∀ v ∈ video_files fail_world.listing, ∀ e,
        error_event v (fail_world.outcomes v) = some e → e ∈ log :=
  batch_failure_isolation fail_world

/-- C4 witness: with both extractions failing, the summary still reports
the candidate total (2) while zero artifacts were produced. -/
theorem summary_counts_candidates_witness :
    (∃ out log, main fail_world = .ok (out, log) ∧
      log.getLast? =
        some (.summary (video_files fail_world.listing).length output_dir) ∧
      .foundFiles (video_files fail_world.listing).length ∈ log) ∧
    (video_files fail_world.listing).length = 2 ∧
    (final_out fail_world).files = [] :=
  ⟨summary_counts_candidates fail_world (by decide), by decide, by decide⟩

end ThumbnailGeneration
